import Mathlib

/-!
Shallow embedding of `autosubs.py`: the track-selection heuristics
(`FileManager`), the settings reconciler (`KodiManager.set_subtrack`,
`KodiManager.set_atrack`, `insert_settings_row`), and the per-file
orchestration (`AutosubsProgram.update_subtitles`, `update_audio`, `_run`).

Modelling conventions:
* mediainfo track attributes keep their Python shapes: `language` and `title`
  are `Option String` (Python `None` vs a string), `default` and `forced` are
  the literal mediainfo strings compared against `"Yes"`.
* Database rows: the program reads only the `AudioStream`, `SubtitleStream`
  and `SubtitlesOn` columns of the `settings` table, so `SettingsRow` carries
  exactly those; the remaining columns of the `insert_settings_row` template
  are opaque profile fields never read back by the program.
* Each `KodiManager` operation touches only the row with the given `idFile`,
  so the row-level operations take and return that one `Option SettingsRow`;
  the store threaded through `_run` is an association list keyed by file id.
* A Python exception that the program does not catch is modelled as an
  `Except.error`: `MediaInfo.parse` failing is `inspectionFailure`, and
  `self.audiotracks[0]` on an empty list is `indexError`.
-/

/-- Python `needle in hay` on strings, as a scan over the character list
(`List.isPrefixOf` at every suffix). Case-sensitive, like Python. -/
def listContainsSeq (needle hay : List Char) : Bool :=
  match hay with
  | [] => needle.isEmpty
  | _ :: t => needle.isPrefixOf hay || listContainsSeq needle t

/-- Python `needle in hay` for `String`s. -/
def strContains (hay needle : String) : Bool :=
  listContainsSeq needle.toList hay.toList

/-- Python `s.lower()`, character by character. -/
def lowerChars (s : String) : List Char :=
  s.toList.map Char.toLower

/-- Python truthiness of an optional string: `None` and `""` are falsy. -/
def strTruthy : Option String → Bool
  | none => false
  | some s => !(s == "")

/-- Python `inp.isdecimal()` followed by `int(inp)`: the parse succeeds on a
non-empty all-digit string and yields its decimal value. -/
def parseDecimal (s : String) : Option Nat :=
  if !s.toList.isEmpty && s.toList.all Char.isDigit then
    some (s.toList.foldl (fun n c => 10 * n + (c.toNat - 48)) 0)
  else none

/-- An audio track as obtained from mediainfo (`track_type == "Audio"`). -/
structure AudioTrack where
  stream_identifier : Nat
  language : Option String
  title : Option String
  default : String
deriving DecidableEq

/-- A subtitle track (`track_type == "Text"`), or the synthetic external-srt
placeholder built in `update_subtitles`. -/
structure SubTrack where
  stream_identifier : Nat
  language : Option String
  title : Option String
  default : String
  forced : String
  codec_id : String
deriving DecidableEq

/-- `FileManager.get_default_audiotrack` (autosubs.py lines 35-41): first
track marked `default == "Yes"`, else the first track.  On an empty track
list the Python `self.audiotracks[0]` raises `IndexError`; that is the
`none` result here. -/
def get_default_audiotrack (audiotracks : List AudioTrack) : Option AudioTrack :=
  let marked_default := audiotracks.filter (fun x => x.default == "Yes")
  if !marked_default.isEmpty then marked_default.head?
  else audiotracks.head?

/-- `FileManager.get_extra_audiotracks` (lines 44-52): every audio track that
is not the default track and whose (truthy) title does not contain
"commentary" case-insensitively. -/
def get_extra_audiotracks (audiotracks : List AudioTrack)
    (default_audiotrack : AudioTrack) : List AudioTrack :=
  audiotracks.filter (fun atrack =>
    !(atrack == default_audiotrack) &&
    !(strTruthy atrack.title &&
      listContainsSeq "commentary".toList (lowerChars (atrack.title.getD ""))))

/-- `FileManager.get_preferred_subtrack` (lines 55-74): filter to the target
language; if more than one candidate remains, drop titles containing "SDH"
unless that empties the set; then first forced, else first default, else
first remaining. -/
def get_preferred_subtrack (subtracks : List SubTrack) (lang_aa : String) :
    Option SubTrack :=
  let localtracks := subtracks.filter (fun x => x.language == some lang_aa)
  if localtracks.isEmpty then none
  else
    let localtracks :=
      if localtracks.length > 1 then
        let clean := localtracks.filter
          (fun x => !strContains (x.title.getD "") "SDH")
        if !clean.isEmpty then clean else localtracks
      else localtracks
    let marked_forced := localtracks.filter (fun x => x.forced == "Yes")
    if !marked_forced.isEmpty then marked_forced.head?
    else
      let marked_default := localtracks.filter (fun x => x.default == "Yes")
      if !marked_default.isEmpty then marked_default.head?
      else localtracks.head?

/-- The `settings` table columns the program reads; the opaque profile fields
of the `insert_settings_row` template are not read back and are omitted. -/
structure SettingsRow where
  AudioStream : Int
  SubtitleStream : Int
  SubtitlesOn : Int
deriving DecidableEq

/-- The row created by `KodiManager.insert_settings_row` (lines 141-175),
restricted to the columns the program reads: the template sets
`AudioStream = -1`, `SubtitleStream = -1`, `SubtitlesOn = 1`. -/
def default_settings_row : SettingsRow :=
  { AudioStream := -1, SubtitleStream := -1, SubtitlesOn := 1 }

/-- `KodiManager.has_subtitle_settings` (lines 128-133):
`res and res[0] != -1 and res[1] == 1`. -/
def has_subtitle_settings (row : Option SettingsRow) : Bool :=
  match row with
  | some r => r.SubtitleStream != -1 && r.SubtitlesOn == 1
  | none => false

/-- `KodiManager.has_audio_settings` (lines 135-138):
`res and res[0] != -1`. -/
def has_audio_settings (row : Option SettingsRow) : Bool :=
  match row with
  | some r => r.AudioStream != -1
  | none => false

/-- Python list indexing on the fetched stream list, with negative-index
support; `none` stands for an `IndexError` (only reachable for a stored
`AudioStream` below `-1`). -/
def pyIndex (l : List String) (i : Int) : Option String :=
  if 0 ≤ i then l.get? i.toNat
  else if (-i).toNat ≤ l.length then l.get? (l.length - (-i).toNat)
  else none

/-- `KodiManager.get_default_audio_lang` (lines 101-126): read the configured
`AudioStream` (treating a missing row or `-1` as `0`), then look that
position up in the `streamdetails` audio-language list `astreams` (an
external store detail, passed in). Returns `none` when the list is empty or
the index is past its end. -/
def get_default_audio_lang (row : Option SettingsRow) (astreams : List String) :
    Option String :=
  let audiostream : Int :=
    match row with
    | some r => if r.AudioStream != -1 then r.AudioStream else 0
    | none => 0
  if astreams.length == 0 then none
  else if (astreams.length : Int) < audiostream + 1 then none
  else pyIndex astreams audiostream

/-- `KodiManager.set_subtrack` (lines 177-197) acting on the settings row for
the given file id (`none` = no row).  Returns the Python return value paired
with the row after the call: an already-set equal index just re-enables
subtitles; a different index bails out with `False` unless forced; otherwise
the row is created from the template if missing and then updated with
`SubtitleStream = tracknum, SubtitlesOn = 1`. -/
def set_subtrack (row : Option SettingsRow) (tracknum : Int) (force : Bool) :
    Bool × Option SettingsRow :=
  match row with
  | some r =>
    if r.SubtitleStream != -1 then
      if r.SubtitleStream == tracknum then
        (true, some { r with SubtitlesOn := 1 })
      else if !force then
        (false, some r)
      else
        (true, some { r with SubtitleStream := tracknum, SubtitlesOn := 1 })
    else
      (true, some { r with SubtitleStream := tracknum, SubtitlesOn := 1 })
  | none =>
    (true, some { default_settings_row with
                    SubtitleStream := tracknum, SubtitlesOn := 1 })

/-- `KodiManager.set_atrack` (lines 199-214), same shape for `AudioStream`
(no `SubtitlesOn` handling). -/
def set_atrack (row : Option SettingsRow) (tracknum : Int) (force : Bool) :
    Bool × Option SettingsRow :=
  match row with
  | some r =>
    if r.AudioStream != -1 then
      if r.AudioStream == tracknum then
        (true, some r)
      else if !force then
        (false, some r)
      else
        (true, some { r with AudioStream := tracknum })
    else
      (true, some { r with AudioStream := tracknum })
  | none =>
    (true, some { default_settings_row with AudioStream := tracknum })

/-- The run-mode flags of `AutosubsProgram` plus the resolved language codes
(`self.args.language.alpha_2` / `alpha_3`). -/
structure Args where
  updateonly : Bool
  fastmode : Bool
  quiet : Bool
  audio : Bool
  lang_aa : String
  lang_aaa : String
deriving DecidableEq

/-- The tail of `AutosubsProgram.parseargs` (lines 321-327): `watch` mode
forces `quiet`, and `quiet` forces `updateonly` and `fastmode` and clears
`audio`. -/
def normalize_args (watch : Bool) (a : Args) : Args :=
  let a := if watch then { a with quiet := true } else a
  if a.quiet then { a with updateonly := true, fastmode := true, audio := false }
  else a

/-- One run's uncaught Python exceptions: `MediaInfo.parse` failing on an
unreadable file, and `self.audiotracks[0]` on a file with zero audio
tracks. -/
inductive RunError where
  | inspectionFailure
  | indexError
deriving DecidableEq

/-- The state of one `FileManager` instance after its constructor
(lines 20-32): the two track lists, the derived fields, and the result of
the external sidecar existence check `has_external_subtrack` (a filesystem
capability, supplied as an input). -/
structure Film where
  audiotracks : List AudioTrack
  subtracks : List SubTrack
  default_audiotrack : AudioTrack
  extra_audiotracks : List AudioTrack
  preferred_subtrack : Option SubTrack
  external_subtrack : Bool
deriving DecidableEq

/-- `FileManager.__init__` given the inspector's track lists: computes the
derived fields in constructor order.  A zero-audio-track file makes
`get_default_audiotrack` raise `IndexError`, which aborts construction. -/
def mkFilm (audiotracks : List AudioTrack) (subtracks : List SubTrack)
    (external : Bool) (lang_aa : String) : Except RunError Film :=
  match get_default_audiotrack audiotracks with
  | none => Except.error RunError.indexError
  | some da =>
    Except.ok
      { audiotracks := audiotracks
        subtracks := subtracks
        default_audiotrack := da
        extra_audiotracks := get_extra_audiotracks audiotracks da
        preferred_subtrack := get_preferred_subtrack subtracks lang_aa
        external_subtrack := external }

/-- `AutosubsProgram.choose_subtrack` (lines 331-356): in quiet mode the
prompt is skipped and `inp` stays `""`; with a truthy default-audio language
an empty input accepts the preferred subtitle track; otherwise a decimal
input in range selects that index.  At its only call site
`film.preferred_subtrack` is present. -/
def choose_subtrack (quiet : Bool) (input : String) (film : Film) : Option Nat :=
  let inp := if quiet then "" else input
  if strTruthy film.default_audiotrack.language && inp == "" then
    film.preferred_subtrack.map SubTrack.stream_identifier
  else
    match parseDecimal inp with
    | some n => if n < film.subtracks.length then some n else none
    | none => none

/-- `AutosubsProgram.choose_atrack` (lines 359-367): always prompts; a
decimal input in range selects that audio track index. -/
def choose_atrack (input : String) (film : Film) : Option Nat :=
  match parseDecimal input with
  | some n => if n < film.audiotracks.length then some n else none
  | none => none

/-- The synthetic external-subtitle placeholder built at lines 376-384:
`stream_identifier` is the file's audio-track count. -/
def external_srt_track (lang_aa : String) (audio_count : Nat) : SubTrack :=
  { stream_identifier := audio_count
    language := some lang_aa
    title := some "EXTERNAL"
    default := "No"
    forced := "No"
    codec_id := "srt" }

/-- Lines 373-388 of `update_subtitles`: when a sidecar was detected, append
the synthetic track to the subtitle list and make it the preferred subtitle
unconditionally. -/
def add_external_subtrack (lang_aa : String) (film : Film) : Film :=
  if film.external_subtrack then
    let ext := external_srt_track lang_aa film.audiotracks.length
    { film with
        subtracks := film.subtracks ++ [ext]
        preferred_subtrack := some ext }
  else film

/-- `AutosubsProgram.update_subtitles` (lines 370-414) acting on the file's
settings row; `input` and `overwrite` are the user's console answers (unused
in quiet mode).  The Python guard `not film.default_audiotrack or ...` can
only take its second disjunct because the constructor always yields a track
object, so only the language comparison remains.  Returns the possibly
extended `film` and the row after all writes. -/
def update_subtitles (quiet : Bool) (lang_aa : String) (input overwrite : String)
    (film : Film) (row : Option SettingsRow) : Film × Option SettingsRow :=
  let film := add_external_subtrack lang_aa film
  if !film.subtracks.isEmpty && film.default_audiotrack.language != some lang_aa then
    match film.preferred_subtrack with
    | some _ =>
      (match choose_subtrack quiet input film with
       | some choice =>
         let res := set_subtrack row (choice : Int) false
         if !res.1 && !quiet then
           if overwrite == "y" then (film, (set_subtrack res.2 (choice : Int) true).2)
           else (film, res.2)
         else (film, res.2)
       | none => (film, row))
    | none => (film, row)
  else (film, row)

/-- `AutosubsProgram.update_audio` (lines 417-432): when extra audio tracks
exist, a chosen index is assigned; on a `False` result the overwrite prompt
is issued (unconditionally, no quiet-mode guard here) and `force=true` is
retried only on the answer `"y"`. -/
def update_audio (input overwrite : String) (film : Film)
    (row : Option SettingsRow) : Option SettingsRow :=
  if !film.extra_audiotracks.isEmpty then
    match choose_atrack input film with
    | some choice =>
      let res := set_atrack row (choice : Int) false
      if !res.1 then
        if overwrite == "y" then (set_atrack res.2 (choice : Int) true).2
        else res.2
      else res.2
    | none => row
  else row

/-- Lines 447-454 of `_run`: subtitles may be updated unless fastmode finds
the target language already default, or updateonly finds subtitles already
configured. -/
def can_update_subtitles (args : Args) (row : Option SettingsRow)
    (astreams : List String) : Bool :=
  let c := true
  let c :=
    if args.fastmode &&
        (get_default_audio_lang row astreams == some args.lang_aaa) then false
    else c
  if args.updateonly && has_subtitle_settings row then false else c

/-- Lines 462-465 of `_run` as written: the guard tests
`self.db.has_audio_settings` without call parentheses, i.e. the bound method
object itself, which is always truthy in Python — so the test reduces to
`updateonly` alone and never consults the database. -/
def can_update_audio (audio updateonly : Bool) : Bool :=
  let c := audio
  let bound_method_is_truthy := true
  if updateonly && bound_method_is_truthy then false else c

/-- Modelled from the spec: "Compute `canUpdateAudio`: true only if the
audio-adjustment feature flag is enabled, and not suppressed by `updateonly`
when an audio-stream setting already exists." Used to exhibit where the code
diverges from this intent. -/
def can_update_audio_spec (audio updateonly : Bool)
    (row : Option SettingsRow) : Bool :=
  audio && !(updateonly && has_audio_settings row)

/-- The per-file external inputs of one `_run` iteration: the `getfid`
lookup result, the `streamdetails` audio-language list for that id, the
inspector's output (`none` = `MediaInfo.parse` raised), and the console
answers consumed by the subtitle and audio prompts. -/
structure FileInput where
  fid : Option Int
  astreams : List String
  inspection : Option (List AudioTrack × List SubTrack × Bool)
  sub_input : String
  sub_overwrite : String
  audio_input : String
  audio_overwrite : String
deriving DecidableEq

/-- The `settings` table as an association list keyed by `idFile`. -/
abbrev Store := List (Int × SettingsRow)

/-- Row lookup by file id. -/
def storeGet (store : Store) (fid : Int) : Option SettingsRow :=
  store.lookup fid

/-- Insert-or-replace of the row for a file id. -/
def storePut (store : Store) (fid : Int) (r : SettingsRow) : Store :=
  match store with
  | [] => [(fid, r)]
  | (k, v) :: rest =>
    if k == fid then (fid, r) :: rest else (k, v) :: storePut rest fid r

/-- Write back the row state an operation returned (`none` = it never
created a row, so the table is untouched). -/
def storeWrite (store : Store) (fid : Int) (row : Option SettingsRow) : Store :=
  match row with
  | some r => storePut store fid r
  | none => store

/-- `mkFilm` behind the inspection boundary: a failed `MediaInfo.parse`
raises before any track list exists. -/
def inspect_film (insp : Option (List AudioTrack × List SubTrack × Bool))
    (lang_aa : String) : Except RunError Film :=
  match insp with
  | none => Except.error RunError.inspectionFailure
  | some (a, s, ext) => mkFilm a s ext lang_aa

/-- One iteration of the `_run` loop body (lines 437-471): a falsy `fid`
(missing row, or id 0) prints a warning and continues; otherwise the
subtitle phase runs when allowed (building the `FileManager`, which may
raise), then the audio phase, reusing the already built film when there is
one.  Errors propagate: the loop body has no exception handler. -/
def process_file (args : Args) (store : Store) (f : FileInput) :
    Except RunError Store :=
  match f.fid with
  | none => Except.ok store
  | some fid =>
    if fid == 0 then Except.ok store
    else
      let row := storeGet store fid
      let cus := can_update_subtitles args row f.astreams
      let cau := can_update_audio args.audio args.updateonly
      if cus then
        match inspect_film f.inspection args.lang_aa with
        | Except.error e => Except.error e
        | Except.ok film =>
          let fr := update_subtitles args.quiet args.lang_aa
              f.sub_input f.sub_overwrite film row
          let store1 := storeWrite store fid fr.2
          if cau then
            let row1 := storeGet store1 fid
            let row2 := update_audio f.audio_input f.audio_overwrite fr.1 row1
            Except.ok (storeWrite store1 fid row2)
          else Except.ok store1
      else
        if cau then
          match inspect_film f.inspection args.lang_aa with
          | Except.error e => Except.error e
          | Except.ok film =>
            let row2 := update_audio f.audio_input f.audio_overwrite film row
            Except.ok (storeWrite store fid row2)
        else Except.ok store

/-- The `_run` loop (lines 434-475) over the batch, threading the settings
store; an uncaught exception in any iteration aborts the whole run. -/
def run_files (args : Args) (store : Store) :
    List FileInput → Except RunError Store
  | [] => Except.ok store
  | f :: rest =>
    match process_file args store f with
    | Except.ok store2 => run_files args store2 rest
    | Except.error e => Except.error e

/-! Concrete sample data used by the witness theorems. -/

/-- A French audio track, not marked default. -/
def aW0 : AudioTrack :=
  { stream_identifier := 0, language := some "fr", title := none,
    default := "No" }

/-- An English audio track marked default. -/
def aW1 : AudioTrack :=
  { stream_identifier := 1, language := some "en", title := none,
    default := "Yes" }

/-- An English SDH subtitle track. -/
def sWsdh : SubTrack :=
  { stream_identifier := 0, language := some "en", title := some "English SDH",
    default := "No", forced := "No", codec_id := "S_TEXT/UTF8" }

/-- A plain English subtitle track. -/
def sWplain : SubTrack :=
  { stream_identifier := 1, language := some "en", title := some "English",
    default := "No", forced := "No", codec_id := "S_TEXT/UTF8" }

/-- A settings row with both streams explicitly chosen. -/
def rW : SettingsRow :=
  { AudioStream := 2, SubtitleStream := 5, SubtitlesOn := 0 }

/-- A film whose audio language differs from the target, with an English
preferred subtitle and no sidecar. -/
def filmW : Film :=
  { audiotracks := [aW0], subtracks := [sWsdh, sWplain],
    default_audiotrack := aW0, extra_audiotracks := [],
    preferred_subtrack := some sWplain, external_subtrack := false }

/-- A film with a detected sidecar and no matching-language embedded
subtitle (the language-filtered preferred result is `none`). -/
def filmSidecarW : Film :=
  { audiotracks := [aW0, aW1], subtracks := [sWsdh, sWplain, sWplain],
    default_audiotrack := aW0, extra_audiotracks := [],
    preferred_subtrack := none, external_subtrack := true }

/-- A scan-mode flag set with every speed-up disabled. -/
def argsW : Args :=
  { updateonly := false, fastmode := false, quiet := false, audio := false,
    lang_aa := "en", lang_aaa := "eng" }

/-- A batch entry whose path is unknown to the database. -/
def fInMissing : FileInput :=
  { fid := none, astreams := [], inspection := none, sub_input := "",
    sub_overwrite := "", audio_input := "", audio_overwrite := "" }

/-- A batch entry whose inspection reports zero audio tracks. -/
def fInNoAudio : FileInput :=
  { fid := some 1, astreams := [], inspection := some ([], [], false),
    sub_input := "", sub_overwrite := "", audio_input := "",
    audio_overwrite := "" }

/-! Helper lemmas shared across the claim proofs. -/

/-- The head of a filtered list is the first element satisfying the
predicate. -/
theorem head?_filter_eq_find? {α : Type} (p : α → Bool) (l : List α) :
    (l.filter p).head? = l.find? p := by
  induction l with
  | nil => rfl
  | cons a t ih => by_cases h : p a <;> simp [List.filter_cons, List.find?, h, ih]

/-- The source's "if the filtered set is non-empty take its head, else fall
back" idiom equals `Option.or` over `find?`. -/
theorem filter_branch_eq_find_or {α : Type} (p : α → Bool) (l : List α)
    (x : Option α) :
    (if !(l.filter p).isEmpty then (l.filter p).head? else x)
      = (l.find? p).or x := by
  rcases hf : l.find? p with _ | t
  · have h0 : l.filter p = [] := by
      rw [List.filter_eq_nil_iff]
      intro a ha
      have := List.find?_eq_none.mp hf a ha
      simpa using this
    simp [h0, hf, Option.or]
  · have h1 : (l.filter p).head? = some t := by
      rw [head?_filter_eq_find?, hf]
    have h2 : l.filter p ≠ [] := by
      intro h; rw [h] at h1; simp at h1
    have h3 : (l.filter p).isEmpty = false := by
      simpa [List.isEmpty_iff] using h2
    simp [h3, h1, Option.or]

/-- An unforced `set_subtrack` never changes an already-set subtitle index
(it either re-enables subtitles or bails out). -/
theorem set_subtrack_noforce_keeps_index (r : SettingsRow) (c : Int)
    (h : r.SubtitleStream ≠ -1) :
    (set_subtrack (some r) c false).2.map SettingsRow.SubtitleStream
      = some r.SubtitleStream := by
  by_cases hc : r.SubtitleStream = c
  · subst hc; simp [set_subtrack, h]
  · simp [set_subtrack, h, hc]

/-- An unforced `set_atrack` never changes an already-set audio index. -/
theorem set_atrack_noforce_keeps_index (r : SettingsRow) (c : Int)
    (h : r.AudioStream ≠ -1) :
    (set_atrack (some r) c false).2.map SettingsRow.AudioStream
      = some r.AudioStream := by
  by_cases hc : r.AudioStream = c
  · subst hc; simp [set_atrack, h]
  · simp [set_atrack, h, hc]

/-- `update_subtitles` returns the film exactly as extended by the sidecar
block, in every control-flow branch. -/
theorem update_subtitles_film (quiet : Bool) (lang input ow : String)
    (film : Film) (row : Option SettingsRow) :
    (update_subtitles quiet lang input ow film row).1
      = add_external_subtrack lang film := by
  simp only [update_subtitles]
  split
  · split
    · split
      · split
        · split <;> rfl
        · rfl
      · rfl
    · rfl
  · rfl

/-! The claims. -/

/-- Claim C1: for every settings record in state `Set(v)` (a stored index
different from `-1`) and every requested index `t ≠ v`, the unforced
assignment (`set_subtrack` / `set_atrack` with `force = false`) returns
`False` (Conflict) and leaves the record unchanged, while the forced call
returns `True` (Applied) and leaves the stored index equal to `t`. -/
theorem set_track_conflict_law (r : SettingsRow) (t : Int) :
    (r.SubtitleStream ≠ -1 → t ≠ r.SubtitleStream →
      set_subtrack (some r) t false = (false, some r) ∧
      (set_subtrack (some r) t true).1 = true ∧
      (set_subtrack (some r) t true).2.map SettingsRow.SubtitleStream
        = some t) ∧
    (r.AudioStream ≠ -1 → t ≠ r.AudioStream →
      set_atrack (some r) t false = (false, some r) ∧
      (set_atrack (some r) t true).1 = true ∧
      (set_atrack (some r) t true).2.map SettingsRow.AudioStream = some t) := by
  constructor
  · intro h1 h2
    refine ⟨?_, ?_, ?_⟩ <;> simp [set_subtrack, h1, Ne.symm h2]
  · intro h1 h2
    refine ⟨?_, ?_, ?_⟩ <;> simp [set_atrack, h1, Ne.symm h2]

/-- Witness for C1 at the record `rW` (`Set(5)` for subtitles, `Set(2)` for
audio) and the requested index `7`. -/
theorem set_track_conflict_law_witness :
    set_subtrack (some rW) 7 false = (false, some rW) ∧
    (set_subtrack (some rW) 7 true).1 = true ∧
    (set_subtrack (some rW) 7 true).2.map SettingsRow.SubtitleStream
      = some 7 ∧
    set_atrack (some rW) 7 false = (false, some rW) ∧
    (set_atrack (some rW) 7 true).1 = true ∧
    (set_atrack (some rW) 7 true).2.map SettingsRow.AudioStream = some 7 := by
  have h := set_track_conflict_law rW 7
  have h1 := h.1 (by decide) (by decide)
  have h2 := h.2 (by decide) (by decide)
  exact ⟨h1.1, h1.2.1, h1.2.2, h2.1, h2.2.1, h2.2.2⟩

/-- Claim C7: starting from an absent record, two successive unforced
assignments of the same index `v` both return `True` (Applied), for either
stream kind, and afterwards the stored index equals `v`. -/
theorem set_track_idempotent (v : Int) :
    (set_subtrack none v false).1 = true ∧
    (set_subtrack (set_subtrack none v false).2 v false).1 = true ∧
    (set_subtrack (set_subtrack none v false).2 v false).2.map
        SettingsRow.SubtitleStream = some v ∧
    (set_atrack none v false).1 = true ∧
    (set_atrack (set_atrack none v false).2 v false).1 = true ∧
    (set_atrack (set_atrack none v false).2 v false).2.map
        SettingsRow.AudioStream = some v := by
  by_cases hv : v = -1 <;>
    simp [set_subtrack, set_atrack, default_settings_row, hv]

/-- Claim C9 (frame effect): `set_atrack` on an absent record creates the
row from the `insert_settings_row` template before writing the audio index,
and that template sets `SubtitlesOn = 1` — so a pure audio assignment on an
absent record leaves subtitles enabled even though no subtitle field was
requested (the subtitle index itself stays unset at `-1`). -/
theorem set_atrack_absent_enables_subtitles (v : Int) :
    set_atrack none v false
        = (true, some { default_settings_row with AudioStream := v }) ∧
    ({ default_settings_row with AudioStream := v } : SettingsRow).SubtitlesOn
        = 1 ∧
    ({ default_settings_row with AudioStream := v } :
        SettingsRow).SubtitleStream = -1 :=
  ⟨rfl, rfl, rfl⟩

/-- Claim C3 (code bug): as written, the `can_update_audio` guard tests the
bound method object instead of calling `has_audio_settings(fid)`, so it
collapses to `audio && !updateonly` and ignores the database: with `audio`
and `updateonly` both set but no existing audio-stream setting, the code
refuses the update even though the spec (and the uncalled
`has_audio_settings`) say it should proceed. -/
theorem can_update_audio_code_bug :
    can_update_audio true true = false ∧
    can_update_audio_spec true true none = true ∧
    (∀ audio updateonly : Bool,
      can_update_audio audio updateonly = (audio && !updateonly)) := by
  refine ⟨rfl, rfl, ?_⟩
  intro audio updateonly
  cases audio <;> cases updateonly <;> rfl

/-- Claim C6: for every non-empty audio-track list, `get_default_audiotrack`
returns the first track marked default if one exists, else the first track
of the list; in particular it returns some track. -/
theorem get_default_audiotrack_first_default (tracks : List AudioTrack)
    (h : tracks ≠ []) :
    get_default_audiotrack tracks
        = (tracks.find? (fun x => x.default == "Yes")).or tracks.head? ∧
    (get_default_audiotrack tracks).isSome = true := by
  have he : get_default_audiotrack tracks
      = (tracks.find? (fun x => x.default == "Yes")).or tracks.head? := by
    unfold get_default_audiotrack
    exact filter_branch_eq_find_or _ tracks _
  refine ⟨he, ?_⟩
  rw [he]
  rcases tracks with _ | ⟨a, t⟩
  · exact absurd rfl h
  · rcases hf : (a :: t).find? (fun x => x.default == "Yes") with _ | u <;>
      simp [hf, Option.or]

/-- Witness for C6 on a two-track list whose second track is the only one
marked default: that track is returned. -/
theorem get_default_audiotrack_first_default_witness :
    (get_default_audiotrack [aW0, aW1]
        = (([aW0, aW1].find? (fun x => x.default == "Yes")).or
            [aW0, aW1].head?) ∧
     (get_default_audiotrack [aW0, aW1]).isSome = true) ∧
    get_default_audiotrack [aW0, aW1] = some aW1 := by
  refine ⟨get_default_audiotrack_first_default [aW0, aW1] (by decide), ?_⟩
  decide

/-- Claim C5: `get_preferred_subtrack` returns `none` exactly when no track
matches the target language; otherwise, within the language-matching
candidates — narrowed by dropping titles containing the case-sensitive
substring "SDH" only when more than one candidate remains and the narrowing
leaves the pool non-empty — it returns the first forced track if any, else
the first default-marked track if any, else the first remaining track. -/
theorem get_preferred_subtrack_priority_chain (subtracks : List SubTrack)
    (lang : String) :
    get_preferred_subtrack subtracks lang =
      (let matching := subtracks.filter (fun x => x.language == some lang)
       let narrowed := matching.filter
         (fun x => !strContains (x.title.getD "") "SDH")
       let pool :=
         if matching.length > 1 ∧ narrowed ≠ [] then narrowed else matching
       if matching = [] then none
       else
         (pool.find? (fun x => x.forced == "Yes")).or
           ((pool.find? (fun x => x.default == "Yes")).or pool.head?)) := by
  simp only [get_preferred_subtrack]
  by_cases hme : subtracks.filter (fun x => x.language == some lang) = []
  · simp [hme]
  · have hbe : (subtracks.filter (fun x => x.language == some lang)).isEmpty
        = false := by simpa [List.isEmpty_iff] using hme
    have hpool :
        (if (subtracks.filter (fun x => x.language == some lang)).length > 1
         then
           (if !((subtracks.filter (fun x => x.language == some lang)).filter
                  (fun x => !strContains (x.title.getD "") "SDH")).isEmpty
            then (subtracks.filter (fun x => x.language == some lang)).filter
                   (fun x => !strContains (x.title.getD "") "SDH")
            else subtracks.filter (fun x => x.language == some lang))
         else subtracks.filter (fun x => x.language == some lang))
        = (if (subtracks.filter (fun x => x.language == some lang)).length > 1
              ∧ (subtracks.filter (fun x => x.language == some lang)).filter
                  (fun x => !strContains (x.title.getD "") "SDH") ≠ []
           then (subtracks.filter (fun x => x.language == some lang)).filter
                  (fun x => !strContains (x.title.getD "") "SDH")
           else subtracks.filter (fun x => x.language == some lang)) := by
      by_cases h1 : (subtracks.filter
          (fun x => x.language == some lang)).length > 1
      · by_cases h2 : (subtracks.filter (fun x => x.language == some lang)).filter
            (fun x => !strContains (x.title.getD "") "SDH") = []
        · simp [h1, h2]
        · have h3 : ((subtracks.filter (fun x => x.language == some lang)).filter
              (fun x => !strContains (x.title.getD "") "SDH")).isEmpty = false := by
            simpa [List.isEmpty_iff] using h2
          simp [h1, h2, h3]
      · simp [h1]
    rw [hbe, hpool]
    simp only [Bool.false_eq_true, if_false, hme]
    rw [filter_branch_eq_find_or, filter_branch_eq_find_or]

/-- Claim C2: in quiet/automatic mode `update_subtitles` never changes an
already-set subtitle index (a conflict is silently skipped, with no second
write); in interactive mode an already-set subtitle or audio index is
changed only after the explicit affirmative answer `"y"` to the overwrite
prompt; and after `parseargs` normalization a quiet run has the audio flag
cleared, so `can_update_audio` is false and `update_audio` is never invoked
in quiet mode. -/
theorem conflict_overwrite_discipline (lang input ow : String) (film : Film)
    (r : SettingsRow) :
    (r.SubtitleStream ≠ -1 →
      (update_subtitles true lang input ow film (some r)).2.map
          SettingsRow.SubtitleStream = some r.SubtitleStream) ∧
    (r.SubtitleStream ≠ -1 → ow ≠ "y" →
      (update_subtitles false lang input ow film (some r)).2.map
          SettingsRow.SubtitleStream = some r.SubtitleStream) ∧
    (r.AudioStream ≠ -1 → ow ≠ "y" →
      (update_audio input ow film (some r)).map SettingsRow.AudioStream
        = some r.AudioStream) ∧
    (∀ a watch, (normalize_args watch a).quiet = true →
      can_update_audio (normalize_args watch a).audio
          (normalize_args watch a).updateonly = false) := by
  refine ⟨?_, ?_, ?_, ?_⟩
  · intro h
    simp only [update_subtitles]
    split
    · split
      · split
        · simp only [Bool.not_true, Bool.and_false, Bool.false_eq_true,
            if_false]
          exact set_subtrack_noforce_keeps_index r _ h
        · rfl
      · rfl
    · rfl
  · intro h how
    have how2 : (ow == "y") = false := by simpa using how
    simp only [update_subtitles]
    split
    · split
      · split
        · simp only [Bool.not_false, Bool.and_true, how2, Bool.false_eq_true,
            if_false]
          split
          · exact set_subtrack_noforce_keeps_index r _ h
          · exact set_subtrack_noforce_keeps_index r _ h
        · rfl
      · rfl
    · rfl
  · intro h how
    have how2 : (ow == "y") = false := by simpa using how
    simp only [update_audio]
    split
    · split
      · simp only [how2, Bool.false_eq_true, if_false]
        split
        · exact set_atrack_noforce_keeps_index r _ h
        · exact set_atrack_noforce_keeps_index r _ h
      · rfl
    · rfl
  · intro a watch hq
    by_cases hw : watch <;> by_cases hqq : a.quiet <;>
      simp [normalize_args, can_update_audio, hw, hqq] at hq ⊢

/-- Witness for C2: a quiet run over `filmW` (whose automatic choice, track
1, conflicts with the stored index 5 of `rW`) leaves the stored subtitle
index untouched; an interactive run answered with `"n"` leaves both stored
indices untouched; and every quiet-normalized flag set disables the audio
update. -/
theorem conflict_overwrite_discipline_witness :
    (update_subtitles true "en" "" "n" filmW (some rW)).2.map
        SettingsRow.SubtitleStream = some rW.SubtitleStream ∧
    (update_subtitles false "en" "" "n" filmW (some rW)).2.map
        SettingsRow.SubtitleStream = some rW.SubtitleStream ∧
    (update_audio "" "n" filmW (some rW)).map SettingsRow.AudioStream
      = some rW.AudioStream ∧
    can_update_audio (normalize_args true argsW).audio
        (normalize_args true argsW).updateonly = false := by
  have h := conflict_overwrite_discipline "en" "" "n" filmW rW
  exact ⟨h.1 (by decide), h.2.1 (by decide) (by decide),
         h.2.2.1 (by decide) (by decide),
         h.2.2.2 argsW true (by decide)⟩

/-- Claim C8: whenever a sidecar subtitle was detected, `update_subtitles`
makes the synthetic external track (`forced = "No"`, `default = "No"`,
codec `"srt"`, language the target two-letter code) the preferred subtitle
unconditionally, whatever `get_preferred_subtrack` had returned — including
when it returned `none`. -/
theorem external_subtrack_overrides (quiet : Bool) (lang input ow : String)
    (film : Film) (row : Option SettingsRow)
    (h : film.external_subtrack = true) :
    (update_subtitles quiet lang input ow film row).1.preferred_subtrack
      = some { stream_identifier := film.audiotracks.length,
               language := some lang, title := some "EXTERNAL",
               default := "No", forced := "No", codec_id := "srt" } := by
  rw [update_subtitles_film]
  simp [add_external_subtrack, external_srt_track, h]

/-- Witness for C8 on `filmSidecarW`, a film whose language-filtered
preferred subtitle is `none` but which has a sidecar: the synthetic track
becomes the preferred subtitle. -/
theorem external_subtrack_overrides_witness :
    (update_subtitles false "en" "" "" filmSidecarW none).1.preferred_subtrack
      = some { stream_identifier := filmSidecarW.audiotracks.length,
               language := some "en", title := some "EXTERNAL",
               default := "No", forced := "No", codec_id := "srt" } :=
  external_subtrack_overrides false "en" "" "" filmSidecarW none rfl

/-- Claim C10: the synthetic external subtitle's `stream_identifier` is the
count of the file's audio tracks — not the subtitle-track count before
insertion — resolving the spec's open numbering question with the
audio-track-count convention. -/
theorem external_subtrack_numbering (quiet : Bool) (lang input ow : String)
    (film : Film) (row : Option SettingsRow)
    (h : film.external_subtrack = true) :
    ∃ t : SubTrack,
      (update_subtitles quiet lang input ow film row).1.preferred_subtrack
          = some t ∧
      t.stream_identifier = film.audiotracks.length := by
  refine ⟨external_srt_track lang film.audiotracks.length, ?_, rfl⟩
  rw [update_subtitles_film]
  simp [add_external_subtrack, h]

/-- Witness for C10 on `filmSidecarW`, which has 2 audio tracks and 3
subtitle tracks before insertion: the synthetic track is numbered 2. -/
theorem external_subtrack_numbering_witness :
    ∃ t : SubTrack,
      (update_subtitles true "en" "" "" filmSidecarW none).1.preferred_subtrack
          = some t ∧
      t.stream_identifier = filmSidecarW.audiotracks.length :=
  external_subtrack_numbering true "en" "" "" filmSidecarW none rfl

/-- Counterexample to claim C4 as stated: with every speed-up flag off, a
batch whose first file is known to the database but inspects to zero audio
tracks makes the whole run abort with the uncaught `IndexError` from
`get_default_audiotrack` — the run does not continue to the next file. -/
theorem run_aborts_on_zero_audio_tracks :
    run_files argsW [] [fInNoAudio, fInMissing]
      = Except.error RunError.indexError := rfl

/-- Claim C4 amended: a missing file identifier is reported and only that
file is skipped, the run continuing unchanged; but a media-inspection
failure, or a file whose inspection yields zero audio tracks, raises an
uncaught exception that aborts the whole run ( `_run` has no per-file
exception handler). -/
theorem per_file_failure_semantics (args : Args) (store : Store)
    (f : FileInput) (rest : List FileInput) :
    (f.fid = none → run_files args store (f :: rest)
        = run_files args store rest) ∧
    (∀ n : Int, f.fid = some n → ¬n = 0 →
      can_update_subtitles args (storeGet store n) f.astreams = true →
      f.inspection = none →
      run_files args store (f :: rest)
        = Except.error RunError.inspectionFailure) ∧
    (∀ (n : Int) (subs : List SubTrack) (ext : Bool), f.fid = some n →
      ¬n = 0 →
      can_update_subtitles args (storeGet store n) f.astreams = true →
      f.inspection = some ([], subs, ext) →
      run_files args store (f :: rest)
        = Except.error RunError.indexError) := by
  refine ⟨?_, ?_, ?_⟩
  · intro h
    simp [run_files, process_file, h]
  · intro n h hn hcus hin
    have hn0 : (n == 0) = false := by simpa using hn
    simp [run_files, process_file, h, hn0, hcus, hin, inspect_film]
  · intro n subs ext h hn hcus hin
    have hn0 : (n == 0) = false := by simpa using hn
    simp [run_files, process_file, h, hn0, hcus, hin, inspect_film, mkFilm,
      get_default_audiotrack]

/-- Witness for the amended C4: a missing-identifier file is skipped with
the run continuing, and a zero-audio-track file aborts the run. -/
theorem per_file_failure_semantics_witness :
    (run_files argsW [] [fInMissing, fInNoAudio]
        = run_files argsW [] [fInNoAudio]) ∧
    run_files argsW [] [fInNoAudio]
        = Except.error RunError.indexError := by
  have h := per_file_failure_semantics argsW [] fInMissing [fInNoAudio]
  have h2 := per_file_failure_semantics argsW [] fInNoAudio []
  exact ⟨h.1 rfl, h2.2.2 1 [] false rfl (by decide) (by decide) rfl⟩
